import Mathlib

/-!
Shallow embedding of the control-flow core of `complete_voice_chatbot.py`
(and its near-duplicate `complete_voice_chatbot_conda.py`): the relevance
classifier `needs_search`, the web augmenter `search_web`, the input
resolver `listen` / `get_input`, the response generator `get_response`,
the interactive session loop of `run_interactive`, and the CLI dispatch
of `main` / `run_single_command`.

Python strings are modelled as Lean `String`; the Python library
operations `str.lower()`, `str.strip()` and the substring test `in` are
modelled by executable functions over the underlying character lists.
External effects (speech capture, the search HTTP request, the language
model call) are modelled as explicit oracle values passed in, so every
function is pure and the control flow is exactly the source's.
-/

/-- Model of Python `str.lower()`: lower-case every character. -/
def pyLower (s : String) : String := ⟨s.data.map Char.toLower⟩

/-- Model of Python `str.strip()`: drop whitespace from both ends. -/
def pyStrip (s : String) : String :=
  ⟨((s.data.dropWhile Char.isWhitespace).reverse.dropWhile Char.isWhitespace).reverse⟩

/-- Contiguous-sublist occurrence test on character lists. -/
def substrOccurs (needle : List Char) : List Char → Bool
  | [] => needle.isEmpty
  | c :: rest => needle.isPrefixOf (c :: rest) || substrOccurs needle rest

/-- Model of Python `needle in hay` on strings (substring containment). -/
def pyContains (needle hay : String) : Bool := substrOccurs needle.data hay.data

/-- The fixed marker list of `needs_search` (`complete_voice_chatbot.py`,
lines 181-185; identical in the conda variant). -/
def search_indicators : List String :=
  ["latest", "recent", "current", "today", "news", "upcoming", "future",
   "cricket", "match", "schedule", "tariff", "search", "when", "dates",
   "world cup", "asia cup", "olympics", "election", "weather", "stock"]

/-- `needs_search` (lines 179-186): `any(indicator in text.lower() for
indicator in search_indicators)`. -/
def needs_search (text : String) : Bool :=
  search_indicators.any (fun indicator => pyContains indicator (pyLower text))

/-- The `knowledgeGraph` part of a Serper response: the `description`
field may be absent. -/
structure KnowledgeGraph where
  description : Option String

/-- One entry of the `organic` array: the `snippet` field may be absent
(`result.get('snippet', '')` defaults it to the empty string). -/
structure OrganicResult where
  snippet : Option String

/-- The parsed search-API response JSON, restricted to the fields
`search_web` reads: optional `knowledgeGraph` and optional `organic`. -/
structure SearchResponse where
  knowledgeGraph : Option KnowledgeGraph
  organic : Option (List OrganicResult)

/-- Outcome of the HTTP POST in `search_web`: either a parsed response or
an exception (transport or parsing failure), which the function catches. -/
inductive SearchOutcome where
  | response (data : SearchResponse)
  | failure (msg : String)

/-- The `results` list built by `search_web` (lines 160-171): the
knowledge-graph description when present, then the first two organic
entries' snippets, skipping falsy (empty) snippets. -/
def extract_results (data : SearchResponse) : List String :=
  (match data.knowledgeGraph with
    | some kg =>
      match kg.description with
      | some d => [d]
      | none => []
    | none => []) ++
  (match data.organic with
    | some results =>
      (results.take 2).filterMap (fun result =>
        let snippet := result.snippet.getD ""
        if snippet ≠ "" then some snippet else none)
    | none => [])

/-- Line 173: `" ".join(results) if results else None`. -/
def join_results (results : List String) : Option String :=
  if results ≠ [] then some (" ".intercalate results) else none

/-- `search_web` (lines 146-177), with the credential and the request
outcome passed explicitly.  The second component records whether the HTTP
request was issued: with no `SERPER_API_KEY` the function returns `None`
before building the request; any exception afterwards is caught and
mapped to `None`. -/
def search_web_run (serper_key : Option String) (outcome : SearchOutcome) :
    Option String × Bool :=
  match serper_key with
  | none => (none, false)
  | some _ =>
    match outcome with
    | .failure _ => (none, true)
    | .response data => (join_results (extract_results data), true)

/-- The value `search_web` returns. -/
def search_web (serper_key : Option String) (outcome : SearchOutcome) :
    Option String :=
  (search_web_run serper_key outcome).1

/-- The spec's description of the augmenter, stated independently of the
code: the knowledge-panel description if present, then up to two
organic-result snippets with empty snippets skipped, joined with single
spaces, absent when nothing was extracted.  Used only to compare with
`search_web`. -/
def fetch_snippets_spec (data : SearchResponse) : Option String :=
  let fragments : List String :=
    (data.knowledgeGraph.bind KnowledgeGraph.description).toList ++
      (((data.organic.getD []).take 2).map (fun r => r.snippet.getD "")).filter
        (fun s => s != "")
  if fragments.isEmpty then none else some (" ".intercalate fragments)

/-- The mocked response `{"organic":[{"snippet":"A"},{"snippet":"B"},{"snippet":"C"}]}`. -/
def mocked_response : SearchResponse :=
  ⟨none, some [⟨some "A"⟩, ⟨some "B"⟩, ⟨some "C"⟩]⟩

/-- Outcome of one speech-capture attempt, mirroring the exception arms of
`listen` (lines 120-128): recognized text, `sr.WaitTimeoutError`,
`sr.UnknownValueError`, or any other backend/device exception. -/
inductive CaptureResult where
  | success (text : String)
  | waitTimeout
  | unknownValue
  | backendError (msg : String)

/-- Whether a capture attempt is one of the three failure modes. -/
def CaptureResult.isFailure : CaptureResult → Bool
  | .success _ => false
  | _ => true

/-- `listen` (lines 103-128): returns `None` when voice input is disabled;
on recognition success returns `text.strip()`; every exception arm returns
`None`.  (The conda variant's `listen` enumerates several microphone
devices but has the same contract: recognized text or `None`.) -/
def listen (voice_input : Bool) (capture : CaptureResult) : Option String :=
  if voice_input then
    match capture with
    | .success text => some (pyStrip text)
    | _ => none
  else none

/-- `get_text_input` (lines 130-132): `input(...).strip()`, with the typed
line passed explicitly. -/
def get_text_input (typed : String) : String := pyStrip typed

/-- `get_input` (lines 134-144): try voice when preferred and enabled;
a falsy result (`None` or empty) falls back to text input. -/
def get_input (voice_input : Bool) (prefer_voice : Bool)
    (capture : CaptureResult) (typed : String) : String :=
  if prefer_voice && voice_input then
    match listen voice_input capture with
    | some speech_input =>
      if speech_input ≠ "" then speech_input else get_text_input typed
    | none => get_text_input typed
  else get_text_input typed

/-- Outcome of the language-model invocation in `get_response`: the reply
text, or an exception caught by the surrounding `try`. -/
inductive LLMOutcome where
  | reply (text : String)
  | failure (msg : String)

/-- The user-role prompt built by `get_response` (lines 196-205), with and
without web augmentation. -/
def build_prompt (question : String) (web_info : Option String) : String :=
  match web_info with
  | some info =>
    "Question: " ++ question ++ "\n\nCurrent information: " ++ info ++
      "\n\nProvide a conversational response (50-80 words) suitable for voice interaction."
  | none =>
    "Question: " ++ question ++
      "\n\nProvide a conversational response (50-80 words) suitable for voice interaction."

/-- `get_response` (lines 188-216): search when the classifier fires, use
the web info only when truthy, invoke the model on the composed prompt,
and convert any model failure into the apology string
`"Sorry, I had an error: " + str(e)`. -/
def get_response (serper_key : Option String) (search_outcome : SearchOutcome)
    (llm : String → LLMOutcome) (question : String) : String :=
  let web_info_raw :=
    if needs_search question then search_web serper_key search_outcome else none
  let web_info :=
    match web_info_raw with
    | some s => if s ≠ "" then some s else none
    | none => none
  match llm (build_prompt question web_info) with
  | .reply text => text
  | .failure msg => "Sorry, I had an error: " ++ msg

/-- The exit keyword list of `run_interactive` (line 250). -/
def exit_commands : List String := ["quit", "exit", "stop", "goodbye", "bye"]

/-- What one iteration of the `run_interactive` loop body does with the
turn's input. -/
inductive TurnAction where
  | reprompt
  | farewell
  | voiceUnavailable
  | voiceFailed
  | errorReported (msg : String)
  | respond (utterance : String) (response : String)

/-- One iteration of the `while True` body of `run_interactive`
(lines 240-284) on a typed line, given the voice capability flag, the
capture oracle for the (at most one) `listen` call, and the response
function.  The second component counts the `listen` calls made.
Mirrors the source order: strip, empty check, exit-keyword check,
`voice` command (capture replaces the input or aborts the turn),
otherwise generate and render a response. -/
def interactive_turn (voice_input : Bool) (capture : CaptureResult)
    (respond : String → String) (raw_line : String) : TurnAction × Nat :=
  let user_input := pyStrip raw_line
  if user_input = "" then (.reprompt, 0)
  else if exit_commands.contains (pyLower user_input) then (.farewell, 0)
  else if pyLower user_input = "voice" then
    if voice_input then
      match listen voice_input capture with
      | some captured =>
        if captured ≠ "" then (.respond captured (respond captured), 1)
        else (.voiceFailed, 1)
      | none => (.voiceFailed, 1)
    else (.voiceUnavailable, 0)
  else (.respond user_input (respond user_input), 0)

/-- The action of one loop iteration. -/
def loop_step (voice_input : Bool) (capture : CaptureResult)
    (respond : String → String) (raw_line : String) : TurnAction :=
  (interactive_turn voice_input capture respond raw_line).1

/-- The number of voice-capture attempts in one loop iteration. -/
def listen_calls (voice_input : Bool) (capture : CaptureResult)
    (respond : String → String) (raw_line : String) : Nat :=
  (interactive_turn voice_input capture respond raw_line).2

/-- Whether a turn action invoked the Response Generator. -/
def calls_generator : TurnAction → Bool
  | .respond _ _ => true
  | _ => false

/-- The event driving one loop iteration: a typed line, a
`KeyboardInterrupt`, or any other exception raised during the turn
(caught by the loop-level `except Exception`). -/
inductive IterEvent where
  | line (raw : String)
  | interrupt
  | exn (msg : String)

/-- One full iteration of the loop including its exception handlers
(lines 286-292): `KeyboardInterrupt` speaks a farewell and breaks; any
other exception is printed and the loop continues. -/
def loop_iter (voice_input : Bool) (capture : CaptureResult)
    (respond : String → String) : IterEvent → TurnAction
  | .line raw => loop_step voice_input capture respond raw
  | .interrupt => .farewell
  | .exn msg => .errorReported msg

/-- The session-loop state after an iteration. -/
inductive LoopState where
  | awaitingInput
  | ended

/-- Only a farewell (`break`) leaves the `while True` loop; every other
action falls through or `continue`s back to the input prompt. -/
def next_state : TurnAction → LoopState
  | .farewell => .ended
  | _ => .awaitingInput

/-- The dispatch of `main` (lines 314-327). -/
inductive MainMode where
  | singleCommand (cmd : String)
  | interactive

/-- `main`: with command-line arguments (`len(sys.argv) > 1`) run
`" ".join(sys.argv[1:])` as one command; otherwise run the interactive
loop.  `args` is `sys.argv[1:]`. -/
def main_dispatch (args : List String) : MainMode :=
  if args.length > 0 then .singleCommand (" ".intercalate args) else .interactive

/-- `run_single_command` (lines 294-312): one `get_response` call, its
result rendered and returned.  The second component counts the
Response Generator invocations. -/
def run_single_command (respond : String → String) (command : String) :
    String × Nat :=
  (respond command, 1)

/-- The fields `__init__` assigns to the chatbot object.  The recognizer,
microphone, TTS engine and model handles are opaque here; only their
identity matters for the no-mutation invariant. -/
structure Session where
  voice_input : Bool
  tts : Bool
  recognizer : Nat
  microphone : Nat
  tts_engine : Nat
  chatbot : Nat

/-- The state of the session object after one loop iteration.  The loop
body of `run_interactive` assigns only the local variables `user_input`,
`voice_input` and `response`; no `self.*` field is assigned anywhere in
the body, so the session object is unchanged. -/
def turn_update (s : Session) : Session := s

/-- Running the interactive loop over a list of per-turn events, each with
its own capture oracle, threading the session object through
`turn_update`.  Returns the final session state and the per-turn
actions. -/
def run_turns (s : Session) (respond : String → String) :
    List (IterEvent × CaptureResult) → Session × List TurnAction
  | [] => (s, [])
  | (ev, cap) :: rest =>
    let act := loop_iter s.voice_input cap respond ev
    let step := run_turns (turn_update s) respond rest
    (step.1, act :: step.2)

/-- `substrOccurs` decides contiguous-sublist containment. -/
theorem substrOccurs_iff (needle hay : List Char) :
    substrOccurs needle hay = true ↔ needle <:+: hay := by
  induction hay with
  | nil =>
    simp [substrOccurs, List.isEmpty_iff, List.infix_nil]
  | cons c rest ih =>
    simp [substrOccurs, ih, List.infix_cons_iff, List.isPrefixOf_iff_prefix]

/-- Claim C1: `needs_search s` is true exactly when the lower-cased `s`
contains one of the 20 fixed markers as a substring; with no marker
present it is false. -/
theorem needs_search_characterization :
    search_indicators.length = 20 ∧
    ∀ s : String,
      needs_search s = true ↔
        ∃ indicator ∈ search_indicators, indicator.data <:+: (pyLower s).data := by
  refine ⟨rfl, fun s => ?_⟩
  simp [needs_search, List.any_eq_true, pyContains, substrOccurs_iff]

/-- Claim C3: with no `SERPER_API_KEY`, `search_web` returns `None` for
every request outcome and issues no HTTP request. -/
theorem search_web_no_credential :
    ∀ outcome : SearchOutcome,
      search_web none outcome = none ∧ (search_web_run none outcome).2 = false := by
  intro outcome
  cases outcome <;> exact ⟨rfl, rfl⟩

/-- Claim C4: every capture failure mode makes `listen` return `None`, and
`get_input` with voice preferred then returns exactly what a direct
textual-input call returns: the trimmed typed line. -/
theorem capture_failure_falls_back_to_text :
    ∀ (capture : CaptureResult) (typed : String),
      capture.isFailure = true →
        listen true capture = none ∧
        get_input true true capture typed = get_text_input typed ∧
        get_text_input typed = pyStrip typed := by
  intro capture typed h
  cases capture with
  | success t => simp [CaptureResult.isFailure] at h
  | waitTimeout => exact ⟨rfl, rfl, rfl⟩
  | unknownValue => exact ⟨rfl, rfl, rfl⟩
  | backendError m => exact ⟨rfl, rfl, rfl⟩

/-- Witness for C4 at the timeout failure with typed line `"  hello  "`. -/
theorem capture_failure_falls_back_to_text_witness :
    listen true .waitTimeout = none ∧
    get_input true true .waitTimeout "  hello  " = get_text_input "  hello  " ∧
    get_text_input "  hello  " = pyStrip "  hello  " :=
  capture_failure_falls_back_to_text .waitTimeout "  hello  " (by decide)

/-- The snippet filterMap of `extract_results` equals mapping to the
snippet strings and keeping the non-empty ones. -/
theorem filterMap_snippet_eq (l : List OrganicResult) :
    l.filterMap (fun result =>
        let snippet := result.snippet.getD ""
        if snippet ≠ "" then some snippet else none)
      = (l.map (fun r => r.snippet.getD "")).filter (fun s => s != "") := by
  induction l with
  | nil => rfl
  | cons a l ih =>
    by_cases h : a.snippet.getD "" = "" <;>
      simp only [List.filterMap_cons, List.map_cons, List.filter_cons] <;>
      simp [h] <;> simp at ih ⊢ <;> exact ih

/-- `extract_results` decomposed into the knowledge-graph part and the
organic part, for arbitrary field values. -/
theorem extract_results_eq (kg : Option KnowledgeGraph)
    (org : Option (List OrganicResult)) :
    extract_results ⟨kg, org⟩ =
      (kg.bind KnowledgeGraph.description).toList ++
        ((org.getD []).take 2).filterMap (fun result =>
          let snippet := result.snippet.getD ""
          if snippet ≠ "" then some snippet else none) := by
  cases kg with
  | none => cases org <;> rfl
  | some k =>
    obtain ⟨d⟩ := k
    cases d <;> cases org <;> rfl

/-- `join_results` in terms of `isEmpty`. -/
theorem join_results_eq (l : List String) :
    join_results l = if l.isEmpty then none else some (" ".intercalate l) := by
  cases l <;> simp [join_results]

/-- With a credential and a parsed response, `search_web` computes exactly
the spec-side extraction. -/
theorem search_web_extract_eq_spec (key : String) (data : SearchResponse) :
    search_web (some key) (.response data) = fetch_snippets_spec data := by
  obtain ⟨kg, org⟩ := data
  show join_results (extract_results ⟨kg, org⟩) = fetch_snippets_spec ⟨kg, org⟩
  rw [extract_results_eq, filterMap_snippet_eq, join_results_eq]
  rfl

/-- Claim C2: `search_web` extracts the knowledge-panel description if
present, then up to two organic snippets with empty snippets skipped,
joins the fragments with single spaces, and returns `None` when nothing
was extracted; on the mocked response with organic snippets A, B, C it
returns a string containing A and B and excluding C. -/
theorem search_web_extraction_matches_spec :
    (∀ (key : String) (data : SearchResponse),
        search_web (some key) (.response data) = fetch_snippets_spec data) ∧
    search_web (some "key") (.response mocked_response) = some "A B" ∧
    pyContains "A" "A B" = true ∧
    pyContains "B" "A B" = true ∧
    pyContains "C" "A B" = false :=
  ⟨search_web_extract_eq_spec, by decide, by decide, by decide, by decide⟩

/-- Claim C5: any input whose trimmed, lower-cased form is an exit keyword
makes the loop speak a farewell and end; in particular "QUIT", "Bye" and
"  goodbye  " all end the session. -/
theorem exit_keywords_end_session :
    (∀ (vi : Bool) (cap : CaptureResult) (respond : String → String) (raw : String),
        exit_commands.contains (pyLower (pyStrip raw)) = true →
          loop_step vi cap respond raw = .farewell ∧
          next_state (loop_step vi cap respond raw) = .ended) ∧
    (∀ (vi : Bool) (cap : CaptureResult) (respond : String → String),
        loop_step vi cap respond "QUIT" = .farewell ∧
        loop_step vi cap respond "Bye" = .farewell ∧
        loop_step vi cap respond "  goodbye  " = .farewell) := by
  constructor
  · intro vi cap respond raw h
    have hne : pyStrip raw ≠ "" := by
      intro he
      rw [he] at h
      exact absurd h (by decide)
    have hstep : loop_step vi cap respond raw = .farewell := by
      simp only [loop_step, interactive_turn]
      rw [if_neg hne, if_pos h]
    exact ⟨hstep, by rw [hstep]; rfl⟩
  · intro vi cap respond
    exact ⟨rfl, rfl, rfl⟩

/-- Witness for C5 at the concrete input "QUIT". -/
theorem exit_keywords_end_session_witness :
    loop_step false .waitTimeout id "QUIT" = .farewell ∧
    next_state (loop_step false .waitTimeout id "QUIT") = .ended :=
  exit_keywords_end_session.1 false .waitTimeout id "QUIT" (by decide)

/-- The apology string embeds the error description as a substring. -/
theorem pyContains_append_right (pre s : String) :
    pyContains s (pre ++ s) = true := by
  rw [pyContains, substrOccurs_iff, String.data_append]
  exact (List.suffix_append pre.data s.data).isInfix

/-- Computation rule: a successful capture reaches the recognizer and is
returned trimmed. -/
theorem listen_true_success (t : String) :
    listen true (.success t) = some (pyStrip t) := rfl

/-- Any turn that is not an exit keyword leaves the loop in
`AwaitingInput`. -/
theorem loop_step_not_exit (vi : Bool) (cap : CaptureResult)
    (respond : String → String) (raw : String)
    (h2 : ¬ exit_commands.contains (pyLower (pyStrip raw)) = true) :
    next_state (loop_step vi cap respond raw) = .awaitingInput := by
  simp only [loop_step, interactive_turn]
  by_cases h1 : pyStrip raw = ""
  · rw [if_pos h1]
    rfl
  · rw [if_neg h1, if_neg h2]
    by_cases h3 : pyLower (pyStrip raw) = "voice"
    · rw [if_pos h3]
      cases vi with
      | false => rfl
      | true =>
        cases cap with
        | success t =>
          by_cases h4 : pyStrip t = "" <;>
            simp [listen_true_success, h4, next_state]
        | waitTimeout => rfl
        | unknownValue => rfl
        | backendError m => rfl
    · rw [if_neg h3]
      rfl

/-- The loop ends on a typed line exactly when the line is an exit
keyword. -/
theorem next_state_loop_step_ended_iff (vi : Bool) (cap : CaptureResult)
    (respond : String → String) (raw : String) :
    next_state (loop_step vi cap respond raw) = .ended ↔
      exit_commands.contains (pyLower (pyStrip raw)) = true := by
  constructor
  · intro h
    by_cases h2 : exit_commands.contains (pyLower (pyStrip raw)) = true
    · exact h2
    · rw [loop_step_not_exit vi cap respond raw h2] at h
      exact absurd h (by simp)
  · intro h
    have hne : pyStrip raw ≠ "" := by
      intro he
      rw [he] at h
      exact absurd h (by decide)
    have hstep : loop_step vi cap respond raw = .farewell := by
      simp only [loop_step, interactive_turn]
      rw [if_neg hne, if_pos h]
    rw [hstep]
    rfl

/-- Claim C6: a failed model invocation yields the apology string
embedding the error description instead of raising; an exception during a
turn is caught at the loop level and the loop returns to awaiting input;
the only loop events reaching the `Ended` state are an interrupt and an
exit-keyword line. -/
theorem turn_failures_never_end_loop :
    (∀ (key : Option String) (so : SearchOutcome) (q m : String),
        get_response key so (fun _ => .failure m) q = "Sorry, I had an error: " ++ m ∧
        pyContains m (get_response key so (fun _ => .failure m) q) = true) ∧
    (∀ (vi : Bool) (cap : CaptureResult) (respond : String → String) (m : String),
        loop_iter vi cap respond (.exn m) = .errorReported m ∧
        next_state (loop_iter vi cap respond (.exn m)) = .awaitingInput) ∧
    (∀ (vi : Bool) (cap : CaptureResult) (respond : String → String) (ev : IterEvent),
        next_state (loop_iter vi cap respond ev) = .ended ↔
          ev = .interrupt ∨
            ∃ raw, ev = .line raw ∧
              exit_commands.contains (pyLower (pyStrip raw)) = true) := by
  refine ⟨fun key so q m => ⟨rfl, pyContains_append_right _ m⟩,
    fun vi cap respond m => ⟨rfl, rfl⟩,
    fun vi cap respond ev => ?_⟩
  cases ev with
  | line raw =>
    have : next_state (loop_iter vi cap respond (.line raw)) = .ended ↔
        exit_commands.contains (pyLower (pyStrip raw)) = true :=
      next_state_loop_step_ended_iff vi cap respond raw
    rw [this]
    simp
  | interrupt => simp [loop_iter, next_state]
  | exn m => simp [loop_iter, next_state]

/-- Reduction of a loop turn whose input's lower-cased trim is the
mode-switch keyword `voice`. -/
theorem interactive_turn_voice_eq (vi : Bool) (cap : CaptureResult)
    (respond : String → String) (raw : String)
    (h3 : pyLower (pyStrip raw) = "voice") :
    interactive_turn vi cap respond raw =
      (if vi then
        match listen vi cap with
        | some captured =>
          if captured ≠ "" then (TurnAction.respond captured (respond captured), 1)
          else (TurnAction.voiceFailed, 1)
        | none => (TurnAction.voiceFailed, 1)
      else (TurnAction.voiceUnavailable, 0)) := by
  have h1 : pyStrip raw ≠ "" := by
    intro he
    rw [he] at h3
    exact absurd h3 (by decide)
  have h2 : ¬ exit_commands.contains (pyLower (pyStrip raw)) = true := by
    rw [h3]
    decide
  simp only [interactive_turn]
  rw [if_neg h1, if_neg h2, if_pos h3]

/-- Claim C7: on a `voice` turn with voice enabled, exactly one capture
attempt is made; a successful capture becomes the turn's utterance, while
a failed capture aborts the turn back to awaiting input without calling
the Response Generator; with voice disabled the turn is aborted with a
notice and no capture attempt. -/
theorem voice_command_turn :
    ∀ (cap : CaptureResult) (respond : String → String) (raw : String),
      pyLower (pyStrip raw) = "voice" →
        (listen_calls true cap respond raw = 1 ∧
          (∀ t, cap = .success t → pyStrip t ≠ "" →
            loop_step true cap respond raw
              = .respond (pyStrip t) (respond (pyStrip t))) ∧
          (cap.isFailure = true →
            loop_step true cap respond raw = .voiceFailed ∧
            next_state (loop_step true cap respond raw) = .awaitingInput ∧
            calls_generator (loop_step true cap respond raw) = false)) ∧
        (loop_step false cap respond raw = .voiceUnavailable ∧
          listen_calls false cap respond raw = 0 ∧
          next_state (loop_step false cap respond raw) = .awaitingInput) := by
  intro cap respond raw h3
  have hT := interactive_turn_voice_eq true cap respond raw h3
  have hF := interactive_turn_voice_eq false cap respond raw h3
  refine ⟨⟨?_, ?_, ?_⟩, ?_, ?_, ?_⟩
  · simp only [listen_calls]
    rw [hT]
    cases cap with
    | success t =>
      by_cases h4 : pyStrip t = "" <;> simp [listen_true_success, h4]
    | waitTimeout => rfl
    | unknownValue => rfl
    | backendError m => rfl
  · intro t hcap h5
    subst hcap
    simp only [loop_step]
    rw [hT]
    simp [listen_true_success, h5]
  · intro hfail
    have hstep : loop_step true cap respond raw = .voiceFailed := by
      simp only [loop_step]
      rw [hT]
      cases cap with
      | success t => simp [CaptureResult.isFailure] at hfail
      | waitTimeout => rfl
      | unknownValue => rfl
      | backendError m => rfl
    exact ⟨hstep, by rw [hstep]; rfl, by rw [hstep]; rfl⟩
  · simp only [loop_step]
    rw [hF]
    rfl
  · simp only [listen_calls]
    rw [hF]
    rfl
  · simp only [loop_step]
    rw [hF]
    rfl

/-- Witness for C7 at the failed capture `.waitTimeout` and input
"Voice". -/
theorem voice_command_turn_witness :
    listen_calls true .waitTimeout id "Voice" = 1 ∧
    loop_step false .waitTimeout id "Voice" = .voiceUnavailable :=
  ⟨(voice_command_turn .waitTimeout id "Voice" (by decide)).1.1,
   (voice_command_turn .waitTimeout id "Voice" (by decide)).2.1⟩

/-- Claim C8: with command-line arguments the program joins them with
single spaces into one command handled once by `run_single_command`, and
never enters the interactive loop; with no arguments it runs the
interactive session. -/
theorem main_arg_dispatch :
    (∀ args : List String, args ≠ [] →
        main_dispatch args = .singleCommand (" ".intercalate args)) ∧
    main_dispatch [] = .interactive ∧
    main_dispatch ["tell", "me", "a", "joke"] = .singleCommand "tell me a joke" ∧
    ∀ (respond : String → String) (command : String),
      (run_single_command respond command).1 = respond command ∧
      (run_single_command respond command).2 = 1 := by
  refine ⟨?_, rfl, rfl, fun respond command => ⟨rfl, rfl⟩⟩
  intro args h
  cases args with
  | nil => exact absurd rfl h
  | cons a l => simp [main_dispatch]

/-- Witness for C8 at the arguments ["tell","me","a","joke"]. -/
theorem main_arg_dispatch_witness :
    main_dispatch ["tell", "me", "a", "joke"]
      = .singleCommand (" ".intercalate ["tell", "me", "a", "joke"]) :=
  main_arg_dispatch.1 ["tell", "me", "a", "joke"] (by decide)

/-- Claim C9: a turn mutates no session field, and the action taken for a
turn's event does not depend on the preceding turns: appending a turn to
any history produces the action computed from the initial session state
alone. -/
theorem turns_are_stateless :
    ∀ (s : Session) (respond : String → String)
      (evs : List (IterEvent × CaptureResult)) (ev : IterEvent)
      (cap : CaptureResult),
      (run_turns s respond evs).1 = s ∧
      (run_turns s respond (evs ++ [(ev, cap)])).2
        = (run_turns s respond evs).2
            ++ [loop_iter s.voice_input cap respond ev] := by
  intro s respond evs ev cap
  induction evs with
  | nil => exact ⟨rfl, rfl⟩
  | cons p rest ih =>
    obtain ⟨pe, pc⟩ := p
    simp only [run_turns, turn_update, List.cons_append, List.append_eq]
    exact ⟨ih.1, by rw [ih.2]⟩

/-- Claim C10: a voice-captured utterance is passed verbatim to the
Response Generator and never re-interpreted as a command: even when the
captured text is an exit keyword or `voice` itself, the turn responds to
it and the loop stays in `AwaitingInput`, with exactly one capture
attempt. -/
theorem voice_capture_not_reinterpreted :
    ∀ (respond : String → String) (t : String),
      pyStrip t ≠ "" →
        loop_step true (.success t) respond "voice"
            = .respond (pyStrip t) (respond (pyStrip t)) ∧
        next_state (loop_step true (.success t) respond "voice") = .awaitingInput ∧
        listen_calls true (.success t) respond "voice" = 1 := by
  intro respond t h
  have hT := interactive_turn_voice_eq true (.success t) respond "voice" (by decide)
  have hstep : loop_step true (.success t) respond "voice"
      = .respond (pyStrip t) (respond (pyStrip t)) := by
    simp only [loop_step]
    rw [hT]
    simp [listen_true_success, h]
  refine ⟨hstep, by rw [hstep]; rfl, ?_⟩
  simp only [listen_calls]
  rw [hT]
  simp [listen_true_success, h]

/-- Witness for C10: the captured exit keyword "quit" is answered, not
obeyed. -/
theorem voice_capture_not_reinterpreted_witness :
    next_state (loop_step true (.success "quit") id "voice") = .awaitingInput :=
  (voice_capture_not_reinterpreted id "quit" (by decide)).2.1
